import Mathlib

/-!
Verification of the OpenBSD userspace router (wgengine/router/router_openbsd.go):
the reconciliation engine (`Set`) that diffs the stored local address and route
set against a desired state and issues `ifconfig`/`route` commands, and the DNS
resolver takeover/restore state machine (`replaceResolvConf` /
`restoreResolvConf`) operating on three fixed filesystem paths.

Shallow embedding conventions:
- IPv4 addresses are `Nat` values (the 32-bit address as an integer); a
  `wgcfg.CIDR` is an address plus a prefix length (`Mask`).
- The OS command gateway (`exec.Cmd.CombinedOutput`) is an environment
  `Env : List String → Option String` mapping a command's argv to `none`
  (success) or `some msg` (failure).  The Go code runs every command
  regardless of earlier failures, so the embedding records the complete
  command list and computes the retained error from the environment.
- The filesystem is restricted to the three fixed paths the code touches
  (`/etc/resolv.conf`, the managed config `/etc/resolv.tailscale.conf`, the
  backup `/etc/resolv.pre-tailscale-backup.conf`); each is absent, a regular
  file with string content, or a symlink with a string target.  Writes of the
  managed config (temp file + atomic rename), backup writes and removals are
  modelled as infallible (their error returns are not exercised by any claim);
  the one fallible filesystem operation a claim depends on — the final
  `os.Symlink(tsConf, resolvConf)` — is controlled by a boolean `symlinkOK`
  parameter.  When it fails the Go code `return nil`s, which the embedding
  reproduces faithfully.
-/

/-- The three fixed paths, from the `const` block of router_openbsd.go. -/
def tsConf : String := "/etc/resolv.tailscale.conf"

/-- Backup path, from the `const` block of router_openbsd.go. -/
def backupConf : String := "/etc/resolv.pre-tailscale-backup.conf"

/-- System resolver path, from the `const` block of router_openbsd.go. -/
def resolvConf : String := "/etc/resolv.conf"

/-- State of one filesystem path: absent, regular file with content, or
symlink with a target string. -/
inductive FNode where
  | absent : FNode
  | file : String → FNode
  | symlink : String → FNode
deriving DecidableEq

/-- The filesystem restricted to the three fixed paths the DNS code touches:
the system resolver path, the backup path, and the managed-config path. -/
structure FS where
  resolv : FNode
  backup : FNode
  ts : FNode
deriving DecidableEq

/-- Render the low byte groups of a 32-bit IPv4 address in dotted-quad form,
as Go's `net.IP` / `wgcfg.IP` stringification does. -/
def ipStr (ip : Nat) : String :=
  toString (ip / 16777216 % 256) ++ "." ++ toString (ip / 65536 % 256) ++ "."
    ++ toString (ip / 256 % 256) ++ "." ++ toString (ip % 256)

/-- A `wgcfg.CIDR`: an IPv4 address (as a 32-bit natural) plus prefix length. -/
structure CIDR where
  ip : Nat
  mask : Nat
deriving DecidableEq

/-- The zero value `wgcfg.CIDR\x7b\x7d` that `Set` compares `r.local` against. -/
def CIDR.zero : CIDR := CIDR.mk 0 0

/-- `wgcfg.CIDR.String()`: address followed by "/" and the prefix length. -/
def CIDR.str (c : CIDR) : String := ipStr c.ip ++ "/" ++ toString c.mask

/-- `net.IP.Mask(net.Mask)`: zero out the low `32 - mask` host bits of the
address, yielding the canonical network address of the prefix. -/
def maskIP (ip mask : Nat) : Nat :=
  ip / 2 ^ (32 - mask) * 2 ^ (32 - mask)

/-- The `nstr` computed in `Set`'s route loops: canonical network address of
the route, a "/", and the prefix length. -/
def nstr (c : CIDR) : String := ipStr (maskIP c.ip c.mask) ++ "/" ++ toString c.mask

/-- Router settings as consumed by `Set`: local addresses (exactly one
supported), desired routes, DNS servers and search domains. -/
structure Settings where
  LocalAddrs : List CIDR
  Routes : List CIDR
  DNS : List Nat
  DNSDomains : List String

/-- In-memory state of `openbsdRouter`: tunnel interface name, last-applied
local address, and the stored route set (a Go map; embedded as a duplicate-free
list of keys). -/
structure RouterState where
  tunname : String
  localAddr : CIDR
  routes : List CIDR
deriving DecidableEq

/-- A command issued to the OS gateway: the argv list passed to `exec.Cmd`. -/
abbrev Cmd := List String

/-- The OS command gateway: maps a command's argv to `none` (success) or
`some diagnostic` (the error from `CombinedOutput`). -/
abbrev Env := Cmd → Option String

/-- `ifconfig <tun> inet <addr> -alias` issued when the local address changes. -/
def addrDelCmd (tun : String) (c : CIDR) : Cmd :=
  ["ifconfig", tun, "inet", c.str, "-alias"]

/-- `route -q -n del -inet <addr> -iface <ip>` for the old local address. -/
def localRouteDelCmd (c : CIDR) : Cmd :=
  ["route", "-q", "-n", "del", "-inet", c.str, "-iface", ipStr c.ip]

/-- `ifconfig <tun> inet <addr> alias` for the new local address. -/
def addrAddCmd (tun : String) (c : CIDR) : Cmd :=
  ["ifconfig", tun, "inet", c.str, "alias"]

/-- `route -q -n add -inet <addr> -iface <ip>` for the new local address. -/
def localRouteAddCmd (c : CIDR) : Cmd :=
  ["route", "-q", "-n", "add", "-inet", c.str, "-iface", ipStr c.ip]

/-- `route -q -n del -inet <nstr> -iface <localIP>` issued in the
delete half of the route diff. -/
def routeDelCmd (localAddr : CIDR) (c : CIDR) : Cmd :=
  ["route", "-q", "-n", "del", "-inet", nstr c, "-iface", ipStr localAddr.ip]

/-- `route -q -n add -inet <nstr> -iface <localIP>` issued in the
add half of the route diff. -/
def routeAddCmd (localAddr : CIDR) (c : CIDR) : Cmd :=
  ["route", "-q", "-n", "add", "-inet", nstr c, "-iface", ipStr localAddr.ip]

/-- The first error among the issued commands, mirroring the repeated
`if errq == nil \x7b errq = err \x7d` pattern: every command runs, the
diagnostic of the first failing one is retained. -/
def firstErr (env : Env) (cmds : List Cmd) : Option String :=
  (cmds.filterMap env).head?

/-- Errors `restoreResolvConf` can return: the `os.Readlink(resolvConf)` error
when the resolver path is not a symlink, or the
"resolv.conf is not a symlink to ..." error when it points elsewhere. -/
inductive RestoreErr where
  | notSymlink : RestoreErr
  | wrongTarget : RestoreErr
deriving DecidableEq

/-- The error returned by `Set`: the early rejection of multiple local
addresses, a retained gateway-command diagnostic, or the wrapped
`replacing resolv.conf failed` error. -/
inductive SetError where
  | unsupported : SetError
  | gatewayErr : String → SetError
  | dnsErr : RestoreErr → SetError
deriving DecidableEq

/-- The managed resolv.conf content rendered by `replaceResolvConf`: two
comment lines, one `nameserver` line per server in order, and a single
`search` line when domains are non-empty. -/
def renderConf (servers : List Nat) (domains : List String) : String :=
  "# resolv.conf(5) file generated by tailscale\n"
    ++ "# DO NOT EDIT THIS FILE BY HAND -- CHANGES WILL BE OVERWRITTEN\n\n"
    ++ String.join (servers.map (fun ns => "nameserver " ++ ipStr ns ++ "\n"))
    ++ (if domains.isEmpty then "" else "search " ++ " ".intercalate domains ++ "\n")

/-- `restoreResolvConf`: if no backup exists, succeed with no change; if the
resolver path is not a symlink to the managed path, fail without mutating
anything; otherwise rename the backup over the resolver path and best-effort
remove the managed config. Returns the new filesystem and the error, if any. -/
def restoreResolvConf (fs : FS) : FS × Option RestoreErr :=
  match fs.backup with
  | FNode.absent => (fs, none)
  | b =>
    match fs.resolv with
    | FNode.symlink t =>
      if t = tsConf then
        (FS.mk b FNode.absent FNode.absent, none)
      else
        (fs, some RestoreErr.wrongTarget)
    | _ => (fs, some RestoreErr.notSymlink)

/-- The final step of `replaceResolvConf`: `os.Remove(resolvConf)` followed by
`os.Symlink(tsConf, resolvConf)`.  When the symlink call fails (`symlinkOK =
false`) the Go code returns `nil`, leaving the resolver path removed; the
embedding reproduces that by leaving `resolv` absent. -/
def installSymlink (symlinkOK : Bool) (fs : FS) : FS :=
  if symlinkOK then FS.mk (FNode.symlink tsConf) fs.backup fs.ts
  else FS.mk FNode.absent fs.backup fs.ts

/-- `replaceResolvConf`: with no servers, delegate to `restoreResolvConf`;
otherwise write the rendered content to the managed path (temp file + atomic
rename, modelled as one infallible write), then inspect the resolver path:
a symlink already at the managed path is a no-op; a symlink elsewhere is backed
up as a symlink; a regular file is backed up by content; an absent path removes
any stale backup and returns early without installing the symlink.  In the two
backup branches the resolver path is then replaced by the symlink. -/
def replaceResolvConf (symlinkOK : Bool) (fs : FS) (servers : List Nat)
    (domains : List String) : FS × Option RestoreErr :=
  if servers = [] then restoreResolvConf fs
  else
    let written : FNode := FNode.file (renderConf servers domains)
    match fs.resolv with
    | FNode.symlink t =>
      if t = tsConf then
        (FS.mk fs.resolv fs.backup written, none)
      else
        (installSymlink symlinkOK (FS.mk fs.resolv (FNode.symlink t) written), none)
    | FNode.file c =>
      (installSymlink symlinkOK (FS.mk fs.resolv (FNode.file c) written), none)
    | FNode.absent =>
      (FS.mk fs.resolv FNode.absent written, none)

/-- The result of one `Set` call: the gateway commands issued in order, the
router state and filesystem afterwards, and the returned error. -/
structure SetResult where
  cmds : List Cmd
  state : RouterState
  fs : FS
  err : Option SetError
deriving DecidableEq

/-- `openbsdRouter.Set`: reject settings without exactly one local address
before any side effect; on an address change remove the old alias and
interface route and add the new ones; diff the stored routes against the
deduplicated desired routes, issuing one delete per removed route and one add
per added route; unconditionally store the desired state; finally call
`replaceResolvConf`, whose failure overwrites `errq`. -/
def Router.Set (env : Env) (symlinkOK : Bool) (fs : FS) (st : RouterState)
    (rs : Settings) : SetResult :=
  if rs.LocalAddrs.length = 1 then
    let localAddr := rs.LocalAddrs.headD CIDR.zero
    let addrCmds : List Cmd :=
      if localAddr ≠ st.localAddr then
        (if st.localAddr ≠ CIDR.zero then
          [addrDelCmd st.tunname st.localAddr, localRouteDelCmd st.localAddr]
        else []) ++ [addrAddCmd st.tunname localAddr, localRouteAddCmd localAddr]
      else []
    let newRoutes := rs.Routes.dedup
    let delCmds := (st.routes.filter (fun r => ¬ r ∈ newRoutes)).map (routeDelCmd localAddr)
    let addCmds := (newRoutes.filter (fun r => ¬ r ∈ st.routes)).map (routeAddCmd localAddr)
    let cmds := addrCmds ++ delCmds ++ addCmds
    let dns := replaceResolvConf symlinkOK fs rs.DNS rs.DNSDomains
    let errq : Option SetError :=
      match dns.2 with
      | some e => some (SetError.dnsErr e)
      | none => (firstErr env cmds).map SetError.gatewayErr
    SetResult.mk cmds (RouterState.mk st.tunname localAddr newRoutes) dns.1 errq
  else
    SetResult.mk [] st fs (some SetError.unsupported)

/-- The error `restoreResolvConf` reports for a given resolver-path node when
a backup exists but the node is not the managed symlink: the wrong-target
message for a symlink elsewhere, the readlink failure otherwise. -/
def tamperErr : FNode → RestoreErr
  | FNode.symlink _ => RestoreErr.wrongTarget
  | _ => RestoreErr.notSymlink

/-! ## Helper lemmas -/

/-- Filtering a list by non-membership in itself leaves nothing. -/
theorem filter_not_mem_self (l : List CIDR) :
    l.filter (fun r => ¬ r ∈ l) = [] := by
  rw [List.filter_eq_nil_iff]
  intro a ha
  simp [ha]

/-! ## Claim theorems -/

/-- C8: for every `symlinkOK`, filesystem state and domains list,
`replaceResolvConf` with an empty server list is definitionally the same
operation as `restoreResolvConf`: same filesystem effects, same result. -/
theorem replace_empty_is_restore (symlinkOK : Bool) (fs : FS)
    (domains : List String) :
    replaceResolvConf symlinkOK fs [] domains = restoreResolvConf fs := rfl

/-- C1 counterexample: with the resolver path absent (and everything else
absent), `replaceResolvConf` with a non-empty server list returns success but
does NOT replace the resolver path with a symlink to the managed path: the
code returns early from the `os.IsNotExist` branch, leaving the resolver path
absent. -/
theorem replace_absent_counterexample :
    (replaceResolvConf true (FS.mk FNode.absent FNode.absent FNode.absent)
        [134744072] []).2 = none ∧
    (replaceResolvConf true (FS.mk FNode.absent FNode.absent FNode.absent)
        [134744072] []).1.resolv ≠ FNode.symlink tsConf := by
  exact ⟨rfl, by intro h; cases h⟩

/-- C1 amended: if the resolver path does not exist, `replaceResolvConf` with
a non-empty server list creates no backup (it even removes any stale backup),
writes the managed config, and returns success — but it does NOT create the
resolver-path symlink; the resolver path is left absent. -/
theorem replace_absent_no_backup_no_symlink (symlinkOK : Bool) (fs : FS)
    (servers : List Nat) (domains : List String) (hs : servers ≠ [])
    (hr : fs.resolv = FNode.absent) :
    replaceResolvConf symlinkOK fs servers domains =
      (FS.mk FNode.absent FNode.absent
        (FNode.file (renderConf servers domains)), none) := by
  obtain ⟨r, b, t⟩ := fs
  cases hr
  simp [replaceResolvConf, hs]

/-- C1 amended, witness at a concrete input: resolver path absent, a stale
backup present; afterwards the backup is gone, the managed config is written,
the resolver path is still absent, and the call succeeded. -/
theorem replace_absent_no_backup_no_symlink_witness :
    [134744072] ≠ ([] : List Nat) ∧
    (FS.mk FNode.absent (FNode.file ("old")) FNode.absent).resolv = FNode.absent ∧
    replaceResolvConf true (FS.mk FNode.absent (FNode.file ("old")) FNode.absent)
        [134744072] [] =
      (FS.mk FNode.absent FNode.absent
        (FNode.file (renderConf [134744072] [])), none) :=
  ⟨by decide, rfl,
    replace_absent_no_backup_no_symlink true
      (FS.mk FNode.absent (FNode.file ("old")) FNode.absent)
      [134744072] [] (by decide) rfl⟩

/-- C3: evaluating the code at the failing input — resolver path is a regular
file, the final symlink creation fails — the call still returns success
(`none`), with the resolver path left removed instead of symlinked: the
`os.Symlink` error branch returns `nil` instead of the error. -/
theorem replace_swallows_symlink_failure :
    replaceResolvConf false
        (FS.mk (FNode.file ("orig")) FNode.absent FNode.absent) [134744072] [] =
      (FS.mk FNode.absent (FNode.file ("orig"))
        (FNode.file (renderConf [134744072] [])), none) := rfl

/-- C7: whenever a backup exists but the resolver path is not a symlink
pointing at the managed path, `restoreResolvConf` returns an error — the
wrong-target error for a symlink pointing elsewhere, the readlink failure
otherwise — and leaves the filesystem (resolver path, backup, managed config)
completely unchanged. -/
theorem restore_tamper_detection (fs : FS) (hb : fs.backup ≠ FNode.absent)
    (hr : fs.resolv ≠ FNode.symlink tsConf) :
    restoreResolvConf fs = (fs, some (tamperErr fs.resolv)) := by
  obtain ⟨r, b, t⟩ := fs
  cases b with
  | absent => exact absurd rfl hb
  | file c =>
    cases r with
    | absent => rfl
    | file c2 => rfl
    | symlink t2 =>
      have ht : t2 ≠ tsConf := fun hEq => hr (by rw [hEq])
      simp [restoreResolvConf, tamperErr, ht]
  | symlink s2 =>
    cases r with
    | absent => rfl
    | file c2 => rfl
    | symlink t2 =>
      have ht : t2 ≠ tsConf := fun hEq => hr (by rw [hEq])
      simp [restoreResolvConf, tamperErr, ht]

/-- C7 witness: backup is a regular file, resolver path is a regular file
(not a symlink at all): restore fails with the readlink error and changes
nothing. -/
theorem restore_tamper_detection_witness :
    (FS.mk (FNode.file ("y")) (FNode.file ("b")) FNode.absent).backup ≠ FNode.absent ∧
    (FS.mk (FNode.file ("y")) (FNode.file ("b")) FNode.absent).resolv ≠ FNode.symlink tsConf ∧
    restoreResolvConf (FS.mk (FNode.file ("y")) (FNode.file ("b")) FNode.absent) =
      (FS.mk (FNode.file ("y")) (FNode.file ("b")) FNode.absent,
        some (tamperErr (FNode.file ("y")))) :=
  ⟨fun h => FNode.noConfusion h, fun h => FNode.noConfusion h,
    restore_tamper_detection
      (FS.mk (FNode.file ("y")) (FNode.file ("b")) FNode.absent)
      (fun h => FNode.noConfusion h) (fun h => FNode.noConfusion h)⟩

/-- C4: starting from a resolver path that is a regular file, or a symlink to
some target other than the managed path, `replaceResolvConf` with a non-empty
server list (symlink creation succeeding) followed by `restoreResolvConf`
succeeds and restores the resolver path's original node exactly, with both the
backup and the managed-config file gone afterwards. -/
theorem replace_then_restore_roundtrip (fs : FS) (servers : List Nat)
    (domains : List String) (hs : servers ≠ [])
    (h : (∃ c, fs.resolv = FNode.file c) ∨
      (∃ t2, fs.resolv = FNode.symlink t2 ∧ t2 ≠ tsConf)) :
    (replaceResolvConf true fs servers domains).2 = none ∧
    restoreResolvConf (replaceResolvConf true fs servers domains).1 =
      (FS.mk fs.resolv FNode.absent FNode.absent, none) := by
  obtain ⟨r, b, t⟩ := fs
  rcases h with ⟨c, hc⟩ | ⟨t2, ht2, hne⟩
  · cases hc
    simp [replaceResolvConf, restoreResolvConf, installSymlink, hs]
  · cases ht2
    simp [replaceResolvConf, restoreResolvConf, installSymlink, hs, hne]

/-- C4 witness: a regular-file resolver config with content "x" survives a
takeover followed by a restore byte-for-byte, and both managed and backup
files are gone. -/
theorem replace_then_restore_roundtrip_witness :
    [134744072] ≠ ([] : List Nat) ∧
    ((∃ c, (FS.mk (FNode.file ("x")) FNode.absent FNode.absent).resolv = FNode.file c) ∨
      (∃ t2, (FS.mk (FNode.file ("x")) FNode.absent FNode.absent).resolv = FNode.symlink t2 ∧
        t2 ≠ tsConf)) ∧
    (replaceResolvConf true (FS.mk (FNode.file ("x")) FNode.absent FNode.absent)
        [134744072] ["corp.example"]).2 = none ∧
    restoreResolvConf
        (replaceResolvConf true (FS.mk (FNode.file ("x")) FNode.absent FNode.absent)
          [134744072] ["corp.example"]).1 =
      (FS.mk (FNode.file ("x")) FNode.absent FNode.absent, none) :=
  ⟨by decide, Or.inl ⟨"x", rfl⟩,
    replace_then_restore_roundtrip
      (FS.mk (FNode.file ("x")) FNode.absent FNode.absent)
      [134744072] ["corp.example"] (by decide) (Or.inl ⟨"x", rfl⟩)⟩

/-- C10: the route add/delete commands of the route diff are built from the
canonical network address (host bits masked to zero): any two CIDRs with the
same prefix length and the same masked network address yield identical
delete and identical add command argument lists. -/
theorem route_cmds_canonical (la c1 c2 : CIDR) (hm : c1.mask = c2.mask)
    (hip : maskIP c1.ip c1.mask = maskIP c2.ip c2.mask) :
    routeDelCmd la c1 = routeDelCmd la c2 ∧ routeAddCmd la c1 = routeAddCmd la c2 := by
  obtain ⟨i1, m1⟩ := c1
  obtain ⟨i2, m2⟩ := c2
  simp only [] at hm hip
  subst hm
  constructor
  · simp [routeDelCmd, nstr, hip]
  · simp [routeAddCmd, nstr, hip]

/-- C10 witness: 10.0.0.5/24 and 10.0.0.6/24 denote the same /24 network and
produce the very same route command arguments. -/
theorem route_cmds_canonical_witness :
    (CIDR.mk 167772165 24).mask = (CIDR.mk 167772166 24).mask ∧
    maskIP 167772165 24 = maskIP 167772166 24 ∧
    routeDelCmd (CIDR.mk 167772161 32) (CIDR.mk 167772165 24) =
      routeDelCmd (CIDR.mk 167772161 32) (CIDR.mk 167772166 24) ∧
    routeAddCmd (CIDR.mk 167772161 32) (CIDR.mk 167772165 24) =
      routeAddCmd (CIDR.mk 167772161 32) (CIDR.mk 167772166 24) :=
  ⟨rfl, by decide,
    route_cmds_canonical (CIDR.mk 167772161 32) (CIDR.mk 167772165 24)
      (CIDR.mk 167772166 24) rfl (by decide)⟩

/-- C9: whenever the desired settings carry exactly one local address, the
stored router state at the end of `Set` is exactly the desired state — the
desired local address and the (deduplicated) desired route set — for every
command environment and filesystem, i.e. regardless of which sub-operations
failed. -/
theorem set_stores_desired_state (env : Env) (symlinkOK : Bool) (fs : FS)
    (st : RouterState) (rs : Settings) (a : CIDR) (h : rs.LocalAddrs = [a]) :
    (Router.Set env symlinkOK fs st rs).state.localAddr = a ∧
    (Router.Set env symlinkOK fs st rs).state.routes = rs.Routes.dedup ∧
    ∀ x : CIDR, x ∈ (Router.Set env symlinkOK fs st rs).state.routes ↔ x ∈ rs.Routes := by
  refine ⟨?_, ?_, ?_⟩ <;> simp [Router.Set, h, List.mem_dedup]

/-- C9 witness: every command fails (`env` returns an error for everything)
and yet the stored state equals the desired one. -/
theorem set_stores_desired_state_witness :
    (Settings.mk [CIDR.mk 167772161 32] [CIDR.mk 167772418 24] [] []).LocalAddrs =
      [CIDR.mk 167772161 32] ∧
    (Router.Set (fun _ => some ("boom")) true
        (FS.mk FNode.absent FNode.absent FNode.absent)
        (RouterState.mk ("tun0") CIDR.zero [])
        (Settings.mk [CIDR.mk 167772161 32] [CIDR.mk 167772418 24] [] [])).state.localAddr =
      CIDR.mk 167772161 32 ∧
    (Router.Set (fun _ => some ("boom")) true
        (FS.mk FNode.absent FNode.absent FNode.absent)
        (RouterState.mk ("tun0") CIDR.zero [])
        (Settings.mk [CIDR.mk 167772161 32] [CIDR.mk 167772418 24] [] [])).state.routes =
      [CIDR.mk 167772418 24] :=
  ⟨rfl,
    (set_stores_desired_state (fun _ => some ("boom")) true
      (FS.mk FNode.absent FNode.absent FNode.absent)
      (RouterState.mk ("tun0") CIDR.zero [])
      (Settings.mk [CIDR.mk 167772161 32] [CIDR.mk 167772418 24] [] [])
      (CIDR.mk 167772161 32) rfl).1,
    by
      have h2 := (set_stores_desired_state (fun _ => some ("boom")) true
        (FS.mk FNode.absent FNode.absent FNode.absent)
        (RouterState.mk ("tun0") CIDR.zero [])
        (Settings.mk [CIDR.mk 167772161 32] [CIDR.mk 167772418 24] [] [])
        (CIDR.mk 167772161 32) rfl).2.1
      rw [h2]
      decide⟩

/-- Counting occurrences in a duplicate-free list filtered by non-membership
in another list: one when the element is in the first list and not the second,
zero otherwise. -/
theorem count_filter_not_mem (l m : List CIDR) (hnd : l.Nodup) (x : CIDR) :
    (l.filter (fun r => ¬ r ∈ m)).count x = if x ∈ l ∧ ¬ x ∈ m then 1 else 0 := by
  by_cases hm : x ∈ m
  · rw [if_neg (fun hc => hc.2 hm), List.count_eq_zero]
    intro hmem
    rw [List.mem_filter] at hmem
    have h2 := hmem.2
    simp only [decide_not, Bool.not_eq_eq_eq_not, Bool.not_true, decide_eq_false_iff_not] at h2
    exact h2 hm
  · rw [List.count_filter (by simp [hm])]
    by_cases hl2 : x ∈ l
    · rw [if_pos ⟨hl2, hm⟩]
      exact List.count_eq_one_of_mem hnd hl2
    · rw [if_neg (fun hc => hl2 hc.1)]
      exact List.count_eq_zero_of_not_mem hl2

/-- C5: after a successful `Set` with desired settings carrying exactly one
local address, running `Set` again with the identical settings issues zero OS
gateway commands (no ifconfig or route invocation): the address is unchanged
and the route diff is empty. -/
theorem set_idempotent_no_commands (env env2 : Env) (s1 s2 : Bool) (fs : FS)
    (st : RouterState) (rs : Settings) (a : CIDR) (h : rs.LocalAddrs = [a])
    (hok : (Router.Set env s1 fs st rs).err = none) :
    (Router.Set env2 s2 (Router.Set env s1 fs st rs).fs
      (Router.Set env s1 fs st rs).state rs).cmds = [] := by
  have hstate : (Router.Set env s1 fs st rs).state =
      RouterState.mk st.tunname a rs.Routes.dedup := by
    simp [Router.Set, h]
  rw [hstate]
  simp [Router.Set, h, filter_not_mem_self]

/-- C5 witness: a concrete first `Set` succeeds, and the second identical
`Set` issues no commands. -/
theorem set_idempotent_no_commands_witness :
    (Settings.mk [CIDR.mk 167772161 32] [CIDR.mk 167772418 24, CIDR.mk 167772674 24] [] []).LocalAddrs =
      [CIDR.mk 167772161 32] ∧
    (Router.Set (fun _ => none) true (FS.mk FNode.absent FNode.absent FNode.absent)
        (RouterState.mk ("tun0") CIDR.zero [])
        (Settings.mk [CIDR.mk 167772161 32] [CIDR.mk 167772418 24, CIDR.mk 167772674 24] [] [])).err =
      none ∧
    (Router.Set (fun _ => none) true
        (Router.Set (fun _ => none) true (FS.mk FNode.absent FNode.absent FNode.absent)
          (RouterState.mk ("tun0") CIDR.zero [])
          (Settings.mk [CIDR.mk 167772161 32] [CIDR.mk 167772418 24, CIDR.mk 167772674 24] [] [])).fs
        (Router.Set (fun _ => none) true (FS.mk FNode.absent FNode.absent FNode.absent)
          (RouterState.mk ("tun0") CIDR.zero [])
          (Settings.mk [CIDR.mk 167772161 32] [CIDR.mk 167772418 24, CIDR.mk 167772674 24] [] [])).state
        (Settings.mk [CIDR.mk 167772161 32] [CIDR.mk 167772418 24, CIDR.mk 167772674 24] [] [])).cmds =
      [] :=
  ⟨rfl, by decide,
    set_idempotent_no_commands (fun _ => none) (fun _ => none) true true
      (FS.mk FNode.absent FNode.absent FNode.absent)
      (RouterState.mk ("tun0") CIDR.zero [])
      (Settings.mk [CIDR.mk 167772161 32] [CIDR.mk 167772418 24, CIDR.mk 167772674 24] [] [])
      (CIDR.mk 167772161 32) rfl (by decide)⟩

/-- C6: when the local address is unchanged, the commands a `Set` call issues
are exactly one route delete per stored route missing from the desired set
followed by exactly one route add per desired route missing from the stored
set; consequently (stored routes being duplicate-free) each route in the
difference accounts for exactly one command and routes in both sets account
for none. -/
theorem set_route_diff (env : Env) (symlinkOK : Bool) (fs : FS)
    (st : RouterState) (rs : Settings) (a : CIDR) (h : rs.LocalAddrs = [a])
    (hl : st.localAddr = a) :
    (Router.Set env symlinkOK fs st rs).cmds =
      (st.routes.filter (fun r => ¬ r ∈ rs.Routes.dedup)).map (routeDelCmd a) ++
      (rs.Routes.dedup.filter (fun r => ¬ r ∈ st.routes)).map (routeAddCmd a) ∧
    (st.routes.Nodup → ∀ x : CIDR,
      ((st.routes.filter (fun r => ¬ r ∈ rs.Routes.dedup)).count x =
        if x ∈ st.routes ∧ ¬ x ∈ rs.Routes then 1 else 0) ∧
      ((rs.Routes.dedup.filter (fun r => ¬ r ∈ st.routes)).count x =
        if x ∈ rs.Routes ∧ ¬ x ∈ st.routes then 1 else 0)) := by
  constructor
  · simp [Router.Set, h, hl]
  · intro hnd x
    constructor
    · rw [count_filter_not_mem st.routes rs.Routes.dedup hnd x]
      simp only [List.mem_dedup]
    · rw [count_filter_not_mem rs.Routes.dedup st.routes (List.nodup_dedup rs.Routes) x]
      simp only [List.mem_dedup]

/-- C6 witness, the spec's own example: stored routes A,B,C and desired
routes B,C,D produce exactly one delete (for A) and one add (for D). -/
theorem set_route_diff_witness :
    (Settings.mk [CIDR.mk 167772161 32]
        [CIDR.mk 167772672 24, CIDR.mk 167772928 24, CIDR.mk 167773184 24] [] []).LocalAddrs =
      [CIDR.mk 167772161 32] ∧
    (RouterState.mk ("tun0") (CIDR.mk 167772161 32)
        [CIDR.mk 167772416 24, CIDR.mk 167772672 24, CIDR.mk 167772928 24]).localAddr =
      CIDR.mk 167772161 32 ∧
    (Router.Set (fun _ => none) true (FS.mk FNode.absent FNode.absent FNode.absent)
        (RouterState.mk ("tun0") (CIDR.mk 167772161 32)
          [CIDR.mk 167772416 24, CIDR.mk 167772672 24, CIDR.mk 167772928 24])
        (Settings.mk [CIDR.mk 167772161 32]
          [CIDR.mk 167772672 24, CIDR.mk 167772928 24, CIDR.mk 167773184 24] [] [])).cmds =
      [routeDelCmd (CIDR.mk 167772161 32) (CIDR.mk 167772416 24),
        routeAddCmd (CIDR.mk 167772161 32) (CIDR.mk 167773184 24)] := by
  refine ⟨rfl, rfl, ?_⟩
  rw [(set_route_diff (fun _ => none) true (FS.mk FNode.absent FNode.absent FNode.absent)
    (RouterState.mk ("tun0") (CIDR.mk 167772161 32)
      [CIDR.mk 167772416 24, CIDR.mk 167772672 24, CIDR.mk 167772928 24])
    (Settings.mk [CIDR.mk 167772161 32]
      [CIDR.mk 167772672 24, CIDR.mk 167772928 24, CIDR.mk 167773184 24] [] [])
    (CIDR.mk 167772161 32) rfl rfl).1]
  decide

/-- C2 counterexample: with an environment in which every gateway command
fails with diagnostic "E1" and a filesystem on which the DNS replacement step
also fails, the first error encountered during the call is the gateway error,
yet `Set` returns the DNS error: the returned error is not the first error
encountered. -/
theorem set_error_not_first :
    (Router.Set (fun _ => some ("E1")) true
        (FS.mk (FNode.file ("y")) (FNode.file ("b")) FNode.absent)
        (RouterState.mk ("tun0") CIDR.zero [])
        (Settings.mk [CIDR.mk 167772161 32] [] [] [])).err =
      some (SetError.dnsErr RestoreErr.notSymlink) ∧
    firstErr (fun _ => some ("E1"))
        (Router.Set (fun _ => some ("E1")) true
          (FS.mk (FNode.file ("y")) (FNode.file ("b")) FNode.absent)
          (RouterState.mk ("tun0") CIDR.zero [])
          (Settings.mk [CIDR.mk 167772161 32] [] [] [])).cmds =
      some ("E1") ∧
    some (SetError.dnsErr RestoreErr.notSymlink) ≠ some (SetError.gatewayErr ("E1")) := by
  refine ⟨rfl, rfl, by decide⟩

/-- C2 amended: the issued command list does not depend on which commands
fail (every operation is still attempted); when the DNS replacement succeeds
the returned error is the first failing gateway command's error; but when the
DNS replacement fails, its error overwrites any earlier gateway error and is
the one returned. -/
theorem set_error_policy (env : Env) (symlinkOK : Bool) (fs : FS)
    (st : RouterState) (rs : Settings) (h : rs.LocalAddrs.length = 1) :
    (∀ env2 : Env, (Router.Set env2 symlinkOK fs st rs).cmds =
      (Router.Set env symlinkOK fs st rs).cmds) ∧
    ((replaceResolvConf symlinkOK fs rs.DNS rs.DNSDomains).2 = none →
      (Router.Set env symlinkOK fs st rs).err =
        (firstErr env (Router.Set env symlinkOK fs st rs).cmds).map SetError.gatewayErr) ∧
    (∀ e : RestoreErr,
      (replaceResolvConf symlinkOK fs rs.DNS rs.DNSDomains).2 = some e →
      (Router.Set env symlinkOK fs st rs).err = some (SetError.dnsErr e)) := by
  refine ⟨fun env2 => by simp [Router.Set, h], ?_, ?_⟩
  · intro hd
    simp [Router.Set, h, hd]
  · intro e hd
    simp [Router.Set, h, hd]

/-- C2 amended, witness: a concrete call in which the only failure is a
gateway command failure; the DNS step succeeds and the returned error is the
first gateway error, and the command list is failure-independent. -/
theorem set_error_policy_witness :
    (Settings.mk [CIDR.mk 167772161 32] [] [] []).LocalAddrs.length = 1 ∧
    ((∀ env2 : Env, (Router.Set env2 true (FS.mk FNode.absent FNode.absent FNode.absent)
        (RouterState.mk ("tun0") CIDR.zero [])
        (Settings.mk [CIDR.mk 167772161 32] [] [] [])).cmds =
      (Router.Set (fun _ => some ("E1")) true (FS.mk FNode.absent FNode.absent FNode.absent)
        (RouterState.mk ("tun0") CIDR.zero [])
        (Settings.mk [CIDR.mk 167772161 32] [] [] [])).cmds) ∧
    ((replaceResolvConf true (FS.mk FNode.absent FNode.absent FNode.absent) [] []).2 = none →
      (Router.Set (fun _ => some ("E1")) true (FS.mk FNode.absent FNode.absent FNode.absent)
        (RouterState.mk ("tun0") CIDR.zero [])
        (Settings.mk [CIDR.mk 167772161 32] [] [] [])).err =
        (firstErr (fun _ => some ("E1"))
          (Router.Set (fun _ => some ("E1")) true (FS.mk FNode.absent FNode.absent FNode.absent)
            (RouterState.mk ("tun0") CIDR.zero [])
            (Settings.mk [CIDR.mk 167772161 32] [] [] [])).cmds).map SetError.gatewayErr) ∧
    (∀ e : RestoreErr,
      (replaceResolvConf true (FS.mk FNode.absent FNode.absent FNode.absent) [] []).2 = some e →
      (Router.Set (fun _ => some ("E1")) true (FS.mk FNode.absent FNode.absent FNode.absent)
        (RouterState.mk ("tun0") CIDR.zero [])
        (Settings.mk [CIDR.mk 167772161 32] [] [] [])).err = some (SetError.dnsErr e))) :=
  ⟨rfl,
    set_error_policy (fun _ => some ("E1")) true
      (FS.mk FNode.absent FNode.absent FNode.absent)
      (RouterState.mk ("tun0") CIDR.zero [])
      (Settings.mk [CIDR.mk 167772161 32] [] [] []) rfl⟩
